import Mathlib

/-!
# D3D9CapturableState: construction, texture ownership, destruction

A shallow embedding of `src/d3d9/d3d9_state.cpp`.

* The object is a record of four sequences.  The three `std::array` members
  have sizes fixed by `d3d9_state.h`, which is not part of the sources at hand,
  so their sizes are taken from the object the constructor is run on (the
  lengths of the sequences of the uninitialised object).
* Every `for (uint32_t i = 0; i < xs.size(); i++)` loop is embedded with its
  32-bit counter made explicit: the increment wraps modulo `2^32`, an index
  outside the array has no result, and a fuel argument bounds the number of
  iterations.
* Reference counts live in a `World`: a count per texture, the sequence of
  acquire/release events so far, and the textures torn down so far.
-/

namespace dxvk

/-! ## Data model -/

/-- The value `UINT32_MAX`. -/
def UINT32_MAX : Nat := 2 ^ 32 - 1

/-- A texture resource, identified by the address of the object. -/
abbrev Texture := Nat

/-- A texture slot, `IDirect3DBaseTexture9*`: `none` is `nullptr`. -/
abbrev TexPtr := Option Texture

/-- Modelled from the spec: `D3D9ClipPlane` is declared in `d3d9_state.h`, which
is missing from the sources.  The spec describes it as a 4-component plane
equation whose default value is zero-initialised.  Each coefficient is kept as
the 32-bit pattern of the `float`; zero-initialisation is the all-zero pattern. -/
structure D3D9ClipPlane where
  coeff : Fin 4 → Nat := fun _ => 0
deriving DecidableEq

/-- The members of `D3D9CapturableState` that `d3d9_state.cpp` touches:
`textures`, `clipPlanes`, `streamFreq` (fixed-size arrays) and
`enabledLightIndices` (a `std::vector<uint32_t>`). -/
structure D3D9CapturableState where
  textures : List TexPtr
  clipPlanes : List D3D9ClipPlane
  streamFreq : List Nat
  enabledLightIndices : List Nat
deriving DecidableEq

/-- One change of a reference count. -/
inductive RefEvent where
  | acquire (t : Texture) : RefEvent
  | release (t : Texture) : RefEvent
deriving DecidableEq, Repr

/-- Everything outside the object that the texture-ownership operation acts on:
the reference count of every texture, the acquire/release events performed so
far (oldest first), and the textures whose count reached zero on a release. -/
structure World where
  refCount : Texture → Int
  trace : List RefEvent
  destroyed : List Texture

/-! ## The counted loop -/

/-- The loop `for (uint32_t i = start; i < size(s); i++) body(i, s)`.
The comparison is made on the unwrapped size, the counter is incremented modulo
`2^32`, a body without a result (an index out of bounds) ends the run without a
result, and so does running out of fuel. -/
def forLoop {σ : Type} (size : σ → Nat) (body : Nat → σ → Option σ) :
    Nat → Nat → σ → Option σ
  | 0, _, _ => none
  | fuel + 1, i, s =>
    if i < size s then
      match body i s with
      | none => none
      | some s' => forLoop size body fuel ((i + 1) % 2 ^ 32) s'
    else some s

/-- The assignment `xs[i] = v` on an array or vector: no result when `i` is not an
index of `xs`. -/
def assignAt {α : Type} (xs : List α) (i : Nat) (v : α) : Option (List α) :=
  if i < xs.length then some (xs.set i v) else none

/-- The call `std::vector<uint32_t>::resize(n)`: keeps the first `n` elements and
appends value-initialised (zero) elements up to length `n`. -/
def resize (xs : List Nat) (n : Nat) : List Nat :=
  xs.take n ++ List.replicate (n - xs.length) 0

/-! ## Constructor (`d3d9_state.cpp`, lines 8-25) -/

/-- Body of the loop of line 10-11: `textures[i] = nullptr`. -/
def ctorTexturesBody (i : Nat) (s : D3D9CapturableState) : Option D3D9CapturableState :=
  (assignAt s.textures i none).map fun xs => { s with textures := xs }

/-- Body of the loop of line 13-14: `clipPlanes[i] = D3D9ClipPlane()`. -/
def ctorClipPlanesBody (i : Nat) (s : D3D9CapturableState) : Option D3D9CapturableState :=
  (assignAt s.clipPlanes i ({} : D3D9ClipPlane)).map fun xs => { s with clipPlanes := xs }

/-- Body of the loop of line 16-17: `streamFreq[i] = 1`. -/
def ctorStreamFreqBody (i : Nat) (s : D3D9CapturableState) : Option D3D9CapturableState :=
  (assignAt s.streamFreq i 1).map fun xs => { s with streamFreq := xs }

/-- Body of the loop of line 23-24: `enabledLightIndices[i] = UINT32_MAX`. -/
def ctorLightsBody (i : Nat) (s : D3D9CapturableState) : Option D3D9CapturableState :=
  (assignAt s.enabledLightIndices i UINT32_MAX).map fun xs =>
    { s with enabledLightIndices := xs }

/-- The constructor `D3D9CapturableState::D3D9CapturableState(uint32_t maxEnabledLights)`,
run in the world `w` on the object `raw` as it is before the constructor body
(its arrays hold arbitrary values).  The body stores into the members and calls
no ownership operation: the world is handed back as it was received. -/
def D3D9CapturableState.ctor (fuel : Nat) (raw : D3D9CapturableState)
    (maxEnabledLights : Nat) (w : World) : Option (D3D9CapturableState × World) := do
  let s1 ← forLoop (fun s => s.textures.length) ctorTexturesBody fuel 0 raw
  let s2 ← forLoop (fun s => s.clipPlanes.length) ctorClipPlanesBody fuel 0 s1
  let s3 ← forLoop (fun s => s.streamFreq.length) ctorStreamFreqBody fuel 0 s2
  let s4 := { s3 with enabledLightIndices := resize s3.enabledLightIndices maxEnabledLights }
  let s5 ← forLoop (fun s => s.enabledLightIndices.length) ctorLightsBody fuel 0 s4
  some (s5, w)

/-- The fixed-size arrays of the object have sizes that a `uint32_t` counter can
reach: the sizes come from `d3d9_state.h` and are compile-time constants. -/
def D3D9CapturableState.Sized (s : D3D9CapturableState) : Prop :=
  s.textures.length < 2 ^ 32 ∧ s.clipPlanes.length < 2 ^ 32 ∧ s.streamFreq.length < 2 ^ 32

instance (s : D3D9CapturableState) : Decidable s.Sized := by
  unfold D3D9CapturableState.Sized; infer_instance

/-- The largest number of iterations of a loop of the constructor or destructor. -/
def loopBound (s : D3D9CapturableState) (maxEnabledLights : Nat) : Nat :=
  max (max s.textures.length s.clipPlanes.length) (max s.streamFreq.length maxEnabledLights)

/-! ## Texture ownership -/

/-- Incrementing the reference count of `t`. -/
def World.acquire (w : World) (t : Texture) : World :=
  { w with
    refCount := fun u => if u = t then w.refCount u + 1 else w.refCount u
    trace := w.trace ++ [RefEvent.acquire t] }

/-- Decrementing the reference count of `t`; the resource is torn down when its
count reaches zero. -/
def World.release (w : World) (t : Texture) : World :=
  { refCount := fun u => if u = t then w.refCount u - 1 else w.refCount u
    trace := w.trace ++ [RefEvent.release t]
    destroyed := if w.refCount t - 1 = 0 then w.destroyed ++ [t] else w.destroyed }

/-- Modelled from the spec: `TextureChangePrivate(dst, src)` is declared in
`d3d9_texture.h`, which is missing from the sources; only its call in the
destructor is at hand.  The spec describes the "change texture ownership"
operation so: assigning the reference already held is a no-op on ownership;
otherwise, if the slot holds a non-empty reference its ownership is released
(count decremented, teardown when the count reaches zero), if the new value is
non-empty a reference is acquired (count incremented), and the new value is
stored in the slot.  `dst` is passed by reference: the new slot value is the
first component of the result. -/
def TextureChangePrivate (dst src : TexPtr) (w : World) : TexPtr × World :=
  if dst = src then (dst, w)
  else
    let w1 := match dst with
      | some a => w.release a
      | none => w
    let w2 := match src with
      | some b => w1.acquire b
      | none => w1
    (src, w2)

/-- Modelled from the spec: the design notes of the spec leave the sequencing of the
ownership operation open between comparing first, as `TextureChangePrivate`
above does, and "increment-then-decrement".  This is the second sequencing: the
new reference, if any, is acquired first, the old one, if any, is released
next, and the new value is stored, with no comparison of the two. -/
def TextureChangePrivateAcquireFirst (dst src : TexPtr) (w : World) : TexPtr × World :=
  let w1 := match src with
    | some b => w.acquire b
    | none => w
  let w2 := match dst with
    | some a => w1.release a
    | none => w1
  (src, w2)

/-- Modelled from the spec: `SetTexture(slot, newTexture)` is the texture slot
mutation of the spec, performed by the owning context, whose code is missing
from the sources.  `slot` must index an existing texture slot (otherwise there
is no result); the slot is changed through the ownership operation. -/
def SetTexture (slot : Nat) (newTexture : TexPtr) (sw : D3D9CapturableState × World) :
    Option (D3D9CapturableState × World) :=
  match sw.1.textures[slot]? with
  | none => none
  | some dst =>
    let r := TextureChangePrivate dst newTexture sw.2
    some ({ sw.1 with textures := sw.1.textures.set slot r.1 }, r.2)

/-! ## Destructor (`d3d9_state.cpp`, lines 27-30) -/

/-- Body of the loop of line 28-29: `TextureChangePrivate(textures[i], nullptr)`,
where `textures[i]` is passed by reference. -/
def dtorBody (i : Nat) (sw : D3D9CapturableState × World) :
    Option (D3D9CapturableState × World) :=
  match sw.1.textures[i]? with
  | none => none
  | some dst =>
    let r := TextureChangePrivate dst none sw.2
    some ({ sw.1 with textures := sw.1.textures.set i r.1 }, r.2)

/-- The destructor `D3D9CapturableState::~D3D9CapturableState()`: its release loop,
run on the object `s` in the world `w`. -/
def D3D9CapturableState.dtor (fuel : Nat) (s : D3D9CapturableState) (w : World) :
    Option (D3D9CapturableState × World) :=
  forLoop (fun sw => sw.1.textures.length) dtorBody fuel 0 (s, w)

/-- The world after one step of the release loop on a slot holding `slot`. -/
def releaseSlot (w : World) (slot : TexPtr) : World :=
  (TextureChangePrivate slot none w).2

/-- The textures held by the slots of the object, in slot order, one entry for
every non-empty slot. -/
def D3D9CapturableState.heldTextures (s : D3D9CapturableState) : List Texture :=
  s.textures.filterMap id

/-- The number of non-empty texture slots of the object. -/
def D3D9CapturableState.nonEmptySlots (s : D3D9CapturableState) : Nat :=
  (s.textures.filter Option.isSome).length

/-- The count of `t` after the events `evs` are applied, oldest first, to the
counts `c`: every acquire adds one, every release removes one. -/
def replay (c : Texture → Int) : List RefEvent → Texture → Int
  | [], t => c t
  | RefEvent.acquire a :: evs, t => replay (fun u => if u = a then c u + 1 else c u) evs t
  | RefEvent.release a :: evs, t => replay (fun u => if u = a then c u - 1 else c u) evs t

/-- The events performed between the world `w` and a later world `w'`. -/
def eventsSince (w w' : World) : List RefEvent :=
  w'.trace.drop w.trace.length

/-! ## Lifetimes: construction, bindings, destruction -/

/-- An operation of the component on an existing object: a texture slot mutation
or the release loop of the destructor. -/
inductive Op where
  | setTexture (slot : Nat) (newTexture : TexPtr) : Op
  | releaseLoop : Op
deriving DecidableEq

/-- One operation. -/
def Op.run (fuel : Nat) : Op → D3D9CapturableState × World →
    Option (D3D9CapturableState × World)
  | Op.setTexture slot newTexture, sw => SetTexture slot newTexture sw
  | Op.releaseLoop, sw => D3D9CapturableState.dtor fuel sw.1 sw.2

/-- A sequence of operations, applied in order. -/
def runOps (fuel : Nat) : List Op → D3D9CapturableState × World →
    Option (D3D9CapturableState × World)
  | [], sw => some sw
  | op :: ops, sw =>
    match op.run fuel sw with
    | none => none
    | some sw' => runOps fuel ops sw'

/-- An operation is valid for an object of `n` texture slots when the slot it
names is one of them. -/
def Op.validFor (n : Nat) : Op → Bool
  | Op.setTexture slot _ => decide (slot < n)
  | Op.releaseLoop => true

/-- A sequence of texture bindings `(slot, newTexture)`, as operations. -/
def bindingOps (bindings : List (Nat × TexPtr)) : List Op :=
  bindings.map fun b => Op.setTexture b.1 b.2

/-- The whole life of an object: construct it from `raw` with the given capacity,
apply the bindings, destroy it. -/
def lifetime (fuel : Nat) (raw : D3D9CapturableState) (maxEnabledLights : Nat)
    (bindings : List (Nat × TexPtr)) (w : World) : Option (D3D9CapturableState × World) :=
  match D3D9CapturableState.ctor fuel raw maxEnabledLights w with
  | none => none
  | some sw0 =>
    match runOps fuel (bindingOps bindings) sw0 with
    | none => none
    | some sw => D3D9CapturableState.dtor fuel sw.1 sw.2

/-! ## The counted loop, with the values of its counter -/

/-- The loop `forLoop`, together with the values the counter had each time the body
was entered, in order.  The first component is the result of `forLoop`. -/
def forLoopRun {σ : Type} (size : σ → Nat) (body : Nat → σ → Option σ) :
    Nat → Nat → σ → Option σ × List Nat
  | 0, _, _ => (none, [])
  | fuel + 1, i, s =>
    if i < size s then
      match body i s with
      | none => (none, [i])
      | some s' =>
        let r := forLoopRun size body fuel ((i + 1) % 2 ^ 32) s'
        (r.1, i :: r.2)
    else (some s, [])

/-- A run of a counted loop over an array of `n` elements is safe: the loop ended
with a result, the body was entered with the counter at 0, 1, ..., `n - 1` in
this order, each of these values is an index of the array, and incrementing it
does not wrap the 32-bit counter. -/
def SafeRun {σ : Type} (r : Option σ × List Nat) (n : Nat) : Prop :=
  r.1.isSome = true ∧ r.2 = List.range n ∧ ∀ i ∈ r.2, i < n ∧ i + 1 < 2 ^ 32

/-! ## Concrete objects used to exercise the definitions -/

/-- An uninitialised object with 21 texture slots, 6 clip planes and 16 streams
holding stale values, and an empty vector of light indices. -/
def rawSample : D3D9CapturableState :=
  { textures := List.replicate 21 (some 3735928559)
    clipPlanes := List.replicate 6 { coeff := fun _ => 1065353216 }
    streamFreq := List.replicate 16 3435973836
    enabledLightIndices := [] }

/-- An object of capacity 8 in which slots 0 and 1 hold the same texture 7 and the
other 19 slots are empty. -/
def stateShared : D3D9CapturableState :=
  { textures := some 7 :: some 7 :: List.replicate 19 none
    clipPlanes := List.replicate 6 {}
    streamFreq := List.replicate 16 1
    enabledLightIndices := List.replicate 8 UINT32_MAX }

/-- The world of `stateShared`: texture 7 has the two references of its two slots. -/
def worldShared : World :=
  { refCount := fun t => if t = 7 then 2 else 0
    trace := [RefEvent.acquire 7, RefEvent.acquire 7]
    destroyed := [] }

/-- An object of capacity 8 in which slot 0 holds texture 7, slot 2 holds texture 9
and the other 19 slots are empty. -/
def stateDistinct : D3D9CapturableState :=
  { textures := some 7 :: none :: some 9 :: List.replicate 18 none
    clipPlanes := List.replicate 6 {}
    streamFreq := List.replicate 16 1
    enabledLightIndices := List.replicate 8 UINT32_MAX }

/-- The world of `stateDistinct`: textures 7 and 9 have one reference each. -/
def worldDistinct : World :=
  { refCount := fun t => if t = 7 then 1 else if t = 9 then 1 else 0
    trace := [RefEvent.acquire 7, RefEvent.acquire 9]
    destroyed := [] }

/-- A world in which no texture is referenced. -/
def worldZero : World :=
  { refCount := fun _ => 0, trace := [], destroyed := [] }

/-! ## The counted loop: its result -/

/-- A loop whose states follow a known sequence `f 0, f 1, ...` of constant size
`n < 2^32` ends in `f n`, given more than `n - i` units of fuel. -/
theorem forLoop_eq {σ : Type} (size : σ → Nat) (body : Nat → σ → Option σ) (n : Nat)
    (f : Nat → σ) (hn : n < 2 ^ 32) (hsize : ∀ i, i ≤ n → size (f i) = n)
    (hstep : ∀ i, i < n → body i (f i) = some (f (i + 1))) :
    ∀ fuel i, i ≤ n → n - i < fuel → forLoop size body fuel i (f i) = some (f n) := by
  intro fuel
  induction fuel with
  | zero => intro i _ h; omega
  | succ fuel ih =>
    intro i hi hfuel
    unfold forLoop
    rw [hsize i hi]
    by_cases hlt : i < n
    · have hmod : (i + 1) % 2 ^ 32 = i + 1 := Nat.mod_eq_of_lt (by omega)
      rw [if_pos hlt, hstep i hlt]
      simp only [hmod]
      exact ih (i + 1) (by omega) (by omega)
    · have : i = n := by omega
      rw [if_neg hlt, this]

/-- Overwriting position `i` of a list already filled with `v` up to `i`. -/
theorem set_fill {α : Type} (xs : List α) (v : α) (i : Nat) (hi : i < xs.length) :
    (List.replicate i v ++ xs.drop i).set i v
      = List.replicate (i + 1) v ++ xs.drop (i + 1) := by
  rw [List.set_append_right _ _ (by simp), List.length_replicate, Nat.sub_self,
    List.drop_eq_getElem_cons hi, List.set_cons_zero, List.replicate_succ',
    List.append_assoc]
  rfl

/-- A loop that assigns `v` to every element of one member of the object, seen
through `get` and `put`, fills that member with `v` and leaves the rest. -/
theorem forLoop_fill {σ α : Type} (get : σ → List α) (put : List α → σ → σ) (v : α)
    (body : Nat → σ → Option σ)
    (hget : ∀ xs s, get (put xs s) = xs)
    (hput : ∀ xs ys s, put xs (put ys s) = put xs s)
    (hid : ∀ s, put (get s) s = s)
    (hbody : ∀ i s, body i s = (assignAt (get s) i v).map fun xs => put xs s)
    (s : σ) (fuel : Nat) (hlen : (get s).length < 2 ^ 32) (hfuel : (get s).length < fuel) :
    forLoop (fun s => (get s).length) body fuel 0 s
      = some (put (List.replicate (get s).length v) s) := by
  have h := forLoop_eq (fun s => (get s).length) body (get s).length
    (fun i => put (List.replicate i v ++ (get s).drop i) s) hlen
    (by intro i hi; simp [hget]; omega)
    (by
      intro i hi
      have hi' : i < (List.replicate i v ++ List.drop i (get s)).length := by
        simp; omega
      rw [hbody, hget, assignAt, if_pos hi', Option.map_some', hput, set_fill _ _ _ hi])
    fuel 0 (Nat.zero_le _) (by omega)
  simpa [hid] using h

/-! ## The constructor: its result -/

theorem resize_length (xs : List Nat) (n : Nat) : (resize xs n).length = n := by
  simp [resize]; omega

/-- With enough fuel the constructor returns, and the object it returns is fully
determined: every array is filled with its default, whatever `raw` held. -/
theorem ctor_eq (fuel : Nat) (raw : D3D9CapturableState) (maxEnabledLights : Nat)
    (w : World) (hraw : raw.Sized) (hm : maxEnabledLights < 2 ^ 32)
    (hfuel : loopBound raw maxEnabledLights < fuel) :
    D3D9CapturableState.ctor fuel raw maxEnabledLights w = some
      ({ textures := List.replicate raw.textures.length none
         clipPlanes := List.replicate raw.clipPlanes.length {}
         streamFreq := List.replicate raw.streamFreq.length 1
         enabledLightIndices := List.replicate maxEnabledLights UINT32_MAX }, w) := by
  obtain ⟨ht, hc, hs⟩ := hraw
  simp only [loopBound, max_lt_iff] at hfuel
  obtain ⟨⟨hft, hfc⟩, hfs, hfm⟩ := hfuel
  have h1 := forLoop_fill (fun s : D3D9CapturableState => s.textures)
    (fun xs s => { s with textures := xs }) none ctorTexturesBody
    (fun _ _ => rfl) (fun _ _ _ => rfl) (fun _ => rfl) (fun _ _ => rfl) raw fuel ht hft
  have h2 := forLoop_fill (fun s : D3D9CapturableState => s.clipPlanes)
    (fun xs s => { s with clipPlanes := xs }) {} ctorClipPlanesBody
    (fun _ _ => rfl) (fun _ _ _ => rfl) (fun _ => rfl) (fun _ _ => rfl)
    { raw with textures := List.replicate raw.textures.length none } fuel hc hfc
  have h3 := forLoop_fill (fun s : D3D9CapturableState => s.streamFreq)
    (fun xs s => { s with streamFreq := xs }) 1 ctorStreamFreqBody
    (fun _ _ => rfl) (fun _ _ _ => rfl) (fun _ => rfl) (fun _ _ => rfl)
    { raw with textures := List.replicate raw.textures.length none
               clipPlanes := List.replicate raw.clipPlanes.length {} } fuel hs hfs
  have h4 := forLoop_fill (fun s : D3D9CapturableState => s.enabledLightIndices)
    (fun xs s => { s with enabledLightIndices := xs }) UINT32_MAX ctorLightsBody
    (fun _ _ => rfl) (fun _ _ _ => rfl) (fun _ => rfl) (fun _ _ => rfl)
    { textures := List.replicate raw.textures.length none
      clipPlanes := List.replicate raw.clipPlanes.length {}
      streamFreq := List.replicate raw.streamFreq.length 1
      enabledLightIndices := resize raw.enabledLightIndices maxEnabledLights } fuel
    (by simpa [resize_length] using hm) (by simpa [resize_length] using hfm)
  simp only [resize_length] at h4
  simp only [D3D9CapturableState.ctor, bind, Option.bind]
  rw [h1]
  simp only [h2, h3, h4]

/-! ## Claims on construction -/

/-- C1: for every `maxEnabledLights` in the 32-bit unsigned range, 0 included, the
constructor returns an object whose `enabledLightIndices` has exactly
`maxEnabledLights` entries, every entry equal to the sentinel `UINT32_MAX`, which
is `2^32 - 1`; for `maxEnabledLights = 0` the sequence is empty. -/
theorem ctor_enabledLightIndices_sentinel (fuel : Nat) (raw : D3D9CapturableState)
    (maxEnabledLights : Nat) (w : World) (hraw : raw.Sized)
    (hm : maxEnabledLights < 2 ^ 32) (hfuel : loopBound raw maxEnabledLights < fuel) :
    ∃ s w', D3D9CapturableState.ctor fuel raw maxEnabledLights w = some (s, w') ∧
      s.enabledLightIndices.length = maxEnabledLights ∧
      (∀ x ∈ s.enabledLightIndices, x = UINT32_MAX ∧ x = 2 ^ 32 - 1) ∧
      (maxEnabledLights = 0 → s.enabledLightIndices = []) := by
  refine ⟨_, _, ctor_eq fuel raw maxEnabledLights w hraw hm hfuel, ?_, ?_, ?_⟩
  · simp
  · intro x hx
    have := List.eq_of_mem_replicate hx
    exact ⟨this, this⟩
  · intro h0
    simp [h0]

/-- C1 at a concrete input: capacity 8 on the sample object. -/
theorem ctor_enabledLightIndices_sentinel_witness :
    (rawSample.Sized ∧ 8 < 2 ^ 32 ∧ loopBound rawSample 8 < 22) ∧
    ∃ s w', D3D9CapturableState.ctor 22 rawSample 8 worldZero = some (s, w') ∧
      s.enabledLightIndices.length = 8 ∧
      (∀ x ∈ s.enabledLightIndices, x = UINT32_MAX ∧ x = 2 ^ 32 - 1) ∧
      (8 = 0 → s.enabledLightIndices = []) :=
  ⟨by decide, ctor_enabledLightIndices_sentinel 22 rawSample 8 worldZero
    (by decide) (by decide) (by decide)⟩

/-- C2: for every `maxEnabledLights`, the constructor returns an object in which
every texture slot is empty (`nullptr`): the object holds no texture, and the
world, with every reference count in it, is as it was before construction. -/
theorem ctor_textures_empty (fuel : Nat) (raw : D3D9CapturableState)
    (maxEnabledLights : Nat) (w : World) (hraw : raw.Sized)
    (hm : maxEnabledLights < 2 ^ 32) (hfuel : loopBound raw maxEnabledLights < fuel) :
    ∃ s w', D3D9CapturableState.ctor fuel raw maxEnabledLights w = some (s, w') ∧
      s.textures.length = raw.textures.length ∧
      (∀ slot ∈ s.textures, slot = none) ∧
      (∀ t : Texture, some t ∉ s.textures) ∧
      (∀ t : Texture, w'.refCount t = w.refCount t) ∧
      w'.trace = w.trace ∧ w'.destroyed = w.destroyed := by
  refine ⟨_, _, ctor_eq fuel raw maxEnabledLights w hraw hm hfuel, ?_, ?_, ?_, ?_, rfl, rfl⟩
  · simp
  · intro slot hslot
    exact List.eq_of_mem_replicate hslot
  · intro t ht
    have := List.eq_of_mem_replicate ht
    exact Option.noConfusion this
  · intro t
    rfl

/-- C2 at a concrete input: capacity 8 on the sample object, whose texture array
holds stale non-null pointers before construction. -/
theorem ctor_textures_empty_witness :
    (rawSample.Sized ∧ 8 < 2 ^ 32 ∧ loopBound rawSample 8 < 22) ∧
    ∃ s w', D3D9CapturableState.ctor 22 rawSample 8 worldZero = some (s, w') ∧
      s.textures.length = rawSample.textures.length ∧
      (∀ slot ∈ s.textures, slot = none) ∧
      (∀ t : Texture, some t ∉ s.textures) ∧
      (∀ t : Texture, w'.refCount t = worldZero.refCount t) ∧
      w'.trace = worldZero.trace ∧ w'.destroyed = worldZero.destroyed :=
  ⟨by decide, ctor_textures_empty 22 rawSample 8 worldZero
    (by decide) (by decide) (by decide)⟩

/-- C3: for every `maxEnabledLights`, every element of `streamFreq` of the object
the constructor returns equals 1, hence is at least 1. -/
theorem ctor_streamFreq_one (fuel : Nat) (raw : D3D9CapturableState)
    (maxEnabledLights : Nat) (w : World) (hraw : raw.Sized)
    (hm : maxEnabledLights < 2 ^ 32) (hfuel : loopBound raw maxEnabledLights < fuel) :
    ∃ s w', D3D9CapturableState.ctor fuel raw maxEnabledLights w = some (s, w') ∧
      s.streamFreq.length = raw.streamFreq.length ∧
      (∀ x ∈ s.streamFreq, x = 1) ∧ (∀ x ∈ s.streamFreq, 1 ≤ x) := by
  refine ⟨_, _, ctor_eq fuel raw maxEnabledLights w hraw hm hfuel, ?_, ?_, ?_⟩
  · simp
  · intro x hx
    exact List.eq_of_mem_replicate hx
  · intro x hx
    exact le_of_eq (List.eq_of_mem_replicate hx).symm

/-- C3 at a concrete input: capacity 0 on the sample object. -/
theorem ctor_streamFreq_one_witness :
    (rawSample.Sized ∧ 0 < 2 ^ 32 ∧ loopBound rawSample 0 < 22) ∧
    ∃ s w', D3D9CapturableState.ctor 22 rawSample 0 worldZero = some (s, w') ∧
      s.streamFreq.length = rawSample.streamFreq.length ∧
      (∀ x ∈ s.streamFreq, x = 1) ∧ (∀ x ∈ s.streamFreq, 1 ≤ x) :=
  ⟨by decide, ctor_streamFreq_one 22 rawSample 0 worldZero
    (by decide) (by decide) (by decide)⟩

/-- C4: for every `maxEnabledLights`, every element of `clipPlanes` of the object
the constructor returns equals the default-constructed `D3D9ClipPlane`, and the
four coefficients of that default plane are zero. -/
theorem ctor_clipPlanes_default (fuel : Nat) (raw : D3D9CapturableState)
    (maxEnabledLights : Nat) (w : World) (hraw : raw.Sized)
    (hm : maxEnabledLights < 2 ^ 32) (hfuel : loopBound raw maxEnabledLights < fuel) :
    ∃ s w', D3D9CapturableState.ctor fuel raw maxEnabledLights w = some (s, w') ∧
      s.clipPlanes.length = raw.clipPlanes.length ∧
      (∀ p ∈ s.clipPlanes, p = ({} : D3D9ClipPlane)) ∧
      (∀ k : Fin 4, ({} : D3D9ClipPlane).coeff k = 0) := by
  refine ⟨_, _, ctor_eq fuel raw maxEnabledLights w hraw hm hfuel, ?_, ?_, ?_⟩
  · simp
  · intro p hp
    exact List.eq_of_mem_replicate hp
  · intro k
    rfl

/-- C4 at a concrete input: capacity 8 on the sample object, whose clip planes
hold non-zero coefficients before construction. -/
theorem ctor_clipPlanes_default_witness :
    (rawSample.Sized ∧ 8 < 2 ^ 32 ∧ loopBound rawSample 8 < 30) ∧
    ∃ s w', D3D9CapturableState.ctor 30 rawSample 8 worldZero = some (s, w') ∧
      s.clipPlanes.length = rawSample.clipPlanes.length ∧
      (∀ p ∈ s.clipPlanes, p = ({} : D3D9ClipPlane)) ∧
      (∀ k : Fin 4, ({} : D3D9ClipPlane).coeff k = 0) :=
  ⟨by decide, ctor_clipPlanes_default 30 rawSample 8 worldZero
    (by decide) (by decide) (by decide)⟩

/-! ## The ownership operation: slot value and counts -/

/-- The slot holds the new value after the ownership operation. -/
theorem TextureChangePrivate_fst (dst src : TexPtr) (w : World) :
    (TextureChangePrivate dst src w).1 = src := by
  unfold TextureChangePrivate
  split
  · assumption
  · rfl

/-- The counts after the ownership operation: the old value loses one reference and
the new value gains one. -/
theorem TextureChangePrivate_refCount (dst src : TexPtr) (w : World) (t : Texture) :
    (TextureChangePrivate dst src w).2.refCount t
      = w.refCount t - (if dst = some t then 1 else 0) + (if src = some t then 1 else 0) := by
  unfold TextureChangePrivate
  by_cases h : dst = src
  · rw [if_pos h, h]
    split <;> simp
  · rw [if_neg h]
    rcases dst with _ | a <;> rcases src with _ | b
    · exact absurd rfl h
    · by_cases hb : b = t
      · subst hb; simp [World.acquire]
      · have hb' : ¬ t = b := fun e => hb e.symm
        simp [World.acquire, hb, hb']
    · by_cases ha : a = t
      · subst ha; simp [World.release]
      · have ha' : ¬ t = a := fun e => ha e.symm
        simp [World.release, ha, ha']
    · have hab : a ≠ b := fun e => h (by rw [e])
      by_cases ha : a = t
      · subst ha
        have hb : ¬ b = a := fun e => hab e.symm
        simp [World.release, World.acquire, hab, hb]
      · have ha' : ¬ t = a := fun e => ha e.symm
        by_cases hb : b = t
        · subst hb; simp [World.release, World.acquire, ha, ha']
        · have hb' : ¬ t = b := fun e => hb e.symm
          simp [World.release, World.acquire, ha, ha', hb, hb']

/-- The counts after releasing a sequence of slots: each texture loses one
reference for every slot of the sequence that holds it. -/
theorem foldl_releaseSlot_refCount (xs : List TexPtr) (w : World) (t : Texture) :
    (xs.foldl releaseSlot w).refCount t = w.refCount t - (xs.count (some t) : Int) := by
  induction xs generalizing w with
  | nil => simp
  | cons x xs ih =>
    rw [List.foldl_cons, ih, releaseSlot, TextureChangePrivate_refCount, List.count_cons]
    by_cases hx : x = some t
    · simp [hx]; omega
    · simp [hx]

/-! ## The destructor: its result -/

/-- With enough fuel the release loop returns: every texture slot is then empty,
the other members are untouched, and the world is the one obtained by releasing
the slots in index order. -/
theorem dtor_eq (fuel : Nat) (s : D3D9CapturableState) (w : World)
    (hlen : s.textures.length < 2 ^ 32) (hfuel : s.textures.length < fuel) :
    D3D9CapturableState.dtor fuel s w = some
      ({ s with textures := List.replicate s.textures.length none },
        s.textures.foldl releaseSlot w) := by
  have h := forLoop_eq (fun sw : D3D9CapturableState × World => sw.1.textures.length)
    dtorBody s.textures.length
    (fun i => ({ s with textures := List.replicate i none ++ s.textures.drop i },
      (s.textures.take i).foldl releaseSlot w)) hlen
    (by intro i hi; simp; omega)
    (by
      intro i hi
      have hget : (List.replicate i (none : TexPtr) ++ List.drop i s.textures)[i]?
          = some s.textures[i] := by
        rw [List.getElem?_append_right (by simp)]
        simp [List.getElem?_drop, List.getElem?_eq_getElem hi]
      simp only [dtorBody, hget, TextureChangePrivate_fst, set_fill _ _ _ hi,
        List.take_succ, List.foldl_append, List.getElem?_eq_getElem hi, Option.toList,
        List.foldl_cons, List.foldl_nil, releaseSlot])
    fuel 0 (Nat.zero_le _) (by omega)
  simpa [D3D9CapturableState.dtor] using h

/-- The events of releasing a sequence of slots: one release for every non-empty
slot, in order, and nothing for an empty slot. -/
theorem foldl_releaseSlot_trace (xs : List TexPtr) (w : World) :
    (xs.foldl releaseSlot w).trace
      = w.trace ++ (xs.filterMap id).map RefEvent.release := by
  induction xs generalizing w with
  | nil => simp
  | cons x xs ih =>
    rw [List.foldl_cons, ih]
    rcases x with _ | a
    · simp [releaseSlot, TextureChangePrivate]
    · simp [releaseSlot, TextureChangePrivate, World.release]

/-- Counting the slots that hold `t` is counting `t` among the held textures. -/
theorem count_some_eq_count_filterMap (xs : List TexPtr) (t : Texture) :
    xs.count (some t) = (xs.filterMap id).count t := by
  induction xs with
  | nil => rfl
  | cons x xs ih =>
    rcases x with _ | a
    · simpa using ih
    · by_cases h : a = t
      · subst h; simp [ih]
      · simp [List.count_cons, h, ih]

/-- There are as many held textures as non-empty slots. -/
theorem length_filterMap_id (xs : List TexPtr) :
    (xs.filterMap id).length = (xs.filter Option.isSome).length := by
  induction xs with
  | nil => rfl
  | cons x xs ih =>
    rcases x with _ | a
    · simpa using ih
    · simp [ih]

/-! ## Claims on destruction and on the ownership operation -/

/-- C5, as stated, fails when two slots hold the same texture.  The object
`stateShared`, with the counts of `worldShared`, is what construction with
capacity 8 followed by binding texture 7 to slots 0 and 1 gives; it has 2
non-empty slots; the destructor returns, the count of texture 7 drops by 2, and
there are no 2 distinct textures whose counts dropped by exactly 1. -/
theorem dtor_shared_texture_counterexample :
    (∃ w0, (match D3D9CapturableState.ctor 22 rawSample 8 worldZero with
        | none => none
        | some sw => runOps 22 [Op.setTexture 0 (some 7), Op.setTexture 1 (some 7)] sw)
          = some (stateShared, w0) ∧
        (∀ t, w0.refCount t = worldShared.refCount t) ∧ w0.trace = worldShared.trace) ∧
    ∃ s' w', D3D9CapturableState.dtor 22 stateShared worldShared = some (s', w') ∧
      stateShared.nonEmptySlots = 2 ∧
      w'.refCount 7 = worldShared.refCount 7 - 2 ∧
      ¬ ∃ T : List Texture, T.Nodup ∧ T.length = stateShared.nonEmptySlots ∧
          ∀ t ∈ T, w'.refCount t = worldShared.refCount t - 1 := by
  constructor
  · refine ⟨_, rfl, ?_, rfl⟩
    intro t
    simp [worldShared, worldZero, TextureChangePrivate, World.acquire]
    split_ifs <;> rfl
  refine ⟨_, _, dtor_eq 22 stateShared worldShared (by decide) (by decide), by decide, ?_, ?_⟩
  · rw [foldl_releaseSlot_refCount]
    simp [stateShared, List.count_cons, List.count_replicate]
  · rintro ⟨T, -, hlen, hT⟩
    rcases T with _ | ⟨a, T⟩
    · exact absurd hlen (by decide)
    · have h := hT a (List.mem_cons_self a T)
      rw [foldl_releaseSlot_refCount] at h
      by_cases ha : a = 7
      · subst ha
        simp [stateShared, List.count_cons, List.count_replicate] at h
      · simp [stateShared, List.count_cons, List.count_replicate, ha] at h
        omega

/-- C5, amended: for every object whose N non-empty texture slots hold pairwise
different textures, the destructor returns and decrements N distinct reference
counts, those of the held textures, by exactly 1 each; it changes no other
count, and performs exactly one release for every non-empty slot and none for
an empty slot. -/
theorem dtor_decrements_distinct (fuel : Nat) (s : D3D9CapturableState) (w : World)
    (hlen : s.textures.length < 2 ^ 32) (hfuel : s.textures.length < fuel)
    (hdistinct : s.heldTextures.Nodup) :
    ∃ s' w', D3D9CapturableState.dtor fuel s w = some (s', w') ∧
      s.heldTextures.length = s.nonEmptySlots ∧
      (∀ t ∈ s.heldTextures, w'.refCount t = w.refCount t - 1) ∧
      (∀ t, t ∉ s.heldTextures → w'.refCount t = w.refCount t) ∧
      w'.trace = w.trace ++ s.heldTextures.map RefEvent.release := by
  refine ⟨_, _, dtor_eq fuel s w hlen hfuel, length_filterMap_id _, ?_, ?_,
    foldl_releaseSlot_trace _ _⟩
  · intro t ht
    rw [foldl_releaseSlot_refCount, count_some_eq_count_filterMap]
    have : s.heldTextures.count t = 1 := List.count_eq_one_of_mem hdistinct ht
    unfold D3D9CapturableState.heldTextures at this
    rw [this]
    rfl
  · intro t ht
    rw [foldl_releaseSlot_refCount, count_some_eq_count_filterMap]
    have : s.heldTextures.count t = 0 := List.count_eq_zero_of_not_mem ht
    unfold D3D9CapturableState.heldTextures at this
    rw [this]
    simp

/-- C5, amended, at a concrete input: slots 0 and 2 hold textures 7 and 9. -/
theorem dtor_decrements_distinct_witness :
    (stateDistinct.textures.length < 2 ^ 32 ∧ stateDistinct.textures.length < 22 ∧
      stateDistinct.heldTextures.Nodup) ∧
    ∃ s' w', D3D9CapturableState.dtor 22 stateDistinct worldDistinct = some (s', w') ∧
      stateDistinct.heldTextures.length = stateDistinct.nonEmptySlots ∧
      (∀ t ∈ stateDistinct.heldTextures, w'.refCount t = worldDistinct.refCount t - 1) ∧
      (∀ t, t ∉ stateDistinct.heldTextures → w'.refCount t = worldDistinct.refCount t) ∧
      w'.trace = worldDistinct.trace ++ stateDistinct.heldTextures.map RefEvent.release :=
  ⟨by decide, dtor_decrements_distinct 22 stateDistinct worldDistinct
    (by decide) (by decide) (by decide)⟩

/-- The slot mutation on a valid slot: the slot takes the new value and the world
is changed by the ownership operation on the old and new values. -/
theorem SetTexture_eq (slot : Nat) (v dst : TexPtr) (s : D3D9CapturableState) (w : World)
    (h : s.textures[slot]? = some dst) :
    SetTexture slot v (s, w) = some
      ({ s with textures := s.textures.set slot v }, (TextureChangePrivate dst v w).2) := by
  simp only [SetTexture, h, TextureChangePrivate_fst]

/-- One step of the release loop on a valid slot. -/
theorem dtorBody_eq (i : Nat) (dst : TexPtr) (s : D3D9CapturableState) (w : World)
    (h : s.textures[i]? = some dst) :
    dtorBody i (s, w) = some
      ({ s with textures := s.textures.set i none }, (TextureChangePrivate dst none w).2) := by
  simp only [dtorBody, h, TextureChangePrivate_fst]

/-- A valid index of a list is below its length. -/
theorem lt_length_of_getElem? {α : Type} {xs : List α} {i : Nat} {a : α}
    (h : xs[i]? = some a) : i < xs.length := by
  obtain ⟨hi, -⟩ := List.getElem?_eq_some.mp h
  exact hi

/-- Storing at an index the value it already holds changes nothing. -/
theorem set_same {α : Type} {xs : List α} {i : Nat} {a : α} (h : xs[i]? = some a) :
    xs.set i a = xs := by
  induction xs generalizing i with
  | nil => rfl
  | cons x xs ih =>
    cases i with
    | zero => simp at h; simp [h]
    | succ i => simp at h; simp [ih h]

/-- C6: for every slot holding a non-empty reference `A` and every reference `B`
different from `A`, binding `B` to the slot returns, decrements the count of `A`
by exactly 1, increments the count of `B` by exactly 1, changes no other count,
and leaves the slot holding `B` (the other slots and members are untouched). -/
theorem SetTexture_rebind_different (s : D3D9CapturableState) (w : World) (slot : Nat)
    (A B : Texture) (hslot : s.textures[slot]? = some (some A)) (hAB : A ≠ B) :
    ∃ s' w', SetTexture slot (some B) (s, w) = some (s', w') ∧
      w'.refCount A = w.refCount A - 1 ∧
      w'.refCount B = w.refCount B + 1 ∧
      (∀ t, t ≠ A → t ≠ B → w'.refCount t = w.refCount t) ∧
      s'.textures[slot]? = some (some B) ∧
      (∀ j, j ≠ slot → s'.textures[j]? = s.textures[j]?) ∧
      s'.clipPlanes = s.clipPlanes ∧ s'.streamFreq = s.streamFreq ∧
      s'.enabledLightIndices = s.enabledLightIndices ∧
      eventsSince w w' = [RefEvent.release A, RefEvent.acquire B] := by
  have hlt := lt_length_of_getElem? hslot
  refine ⟨_, _, SetTexture_eq slot (some B) (some A) s w hslot, ?_, ?_, ?_, ?_, ?_,
    rfl, rfl, rfl, ?_⟩
  · rw [TextureChangePrivate_refCount]
    simp [hAB.symm]
  · rw [TextureChangePrivate_refCount]
    simp [hAB]
  · intro t hA hB
    rw [TextureChangePrivate_refCount]
    simp [Ne.symm hA, Ne.symm hB]
  · exact List.getElem?_set_self hlt
  · intro j hj
    exact List.getElem?_set_ne (Ne.symm hj)
  · simp [eventsSince, TextureChangePrivate, hAB, World.release, World.acquire]

/-- C6 at a concrete input: slot 0 of `stateDistinct` holds texture 7; bind 11. -/
theorem SetTexture_rebind_different_witness :
    (stateDistinct.textures[0]? = some (some 7) ∧ (7 : Texture) ≠ 11) ∧
    ∃ s' w', SetTexture 0 (some 11) (stateDistinct, worldDistinct) = some (s', w') ∧
      w'.refCount 7 = worldDistinct.refCount 7 - 1 ∧
      w'.refCount 11 = worldDistinct.refCount 11 + 1 ∧
      (∀ t, t ≠ 7 → t ≠ 11 → w'.refCount t = worldDistinct.refCount t) ∧
      s'.textures[0]? = some (some 11) ∧
      (∀ j, j ≠ 0 → s'.textures[j]? = stateDistinct.textures[j]?) ∧
      s'.clipPlanes = stateDistinct.clipPlanes ∧ s'.streamFreq = stateDistinct.streamFreq ∧
      s'.enabledLightIndices = stateDistinct.enabledLightIndices ∧
      eventsSince worldDistinct w' = [RefEvent.release 7, RefEvent.acquire 11] :=
  ⟨by decide, SetTexture_rebind_different stateDistinct worldDistinct 0 7 11
    (by decide) (by decide)⟩

/-- C7: for every slot that already holds a non-empty reference `A`, binding `A` to
it again returns the object and the world as they were: the count of `A` is
unchanged, no acquire or release is performed, so after every initial part of
the events of the operation the count of `A` is not below its starting value.
Under the other sequencing the spec allows, acquire first and release next, the
counts are unchanged at the end as well and the count of `A` is never below its
starting value in between. -/
theorem SetTexture_rebind_same (s : D3D9CapturableState) (w : World) (slot : Nat)
    (A : Texture) (hslot : s.textures[slot]? = some (some A)) :
    (∃ s' w', SetTexture slot (some A) (s, w) = some (s', w') ∧
      s' = s ∧ w'.refCount A = w.refCount A ∧
      (∀ t, w'.refCount t = w.refCount t) ∧
      eventsSince w w' = [] ∧ w'.destroyed = w.destroyed ∧
      (∀ k, w.refCount A ≤ replay w.refCount ((eventsSince w w').take k) A)) ∧
    (∃ w', TextureChangePrivateAcquireFirst (some A) (some A) w = (some A, w') ∧
      (∀ t, w'.refCount t = w.refCount t) ∧
      eventsSince w w' = [RefEvent.acquire A, RefEvent.release A] ∧
      (∀ k, w.refCount A ≤ replay w.refCount ((eventsSince w w').take k) A)) := by
  have hlt := lt_length_of_getElem? hslot
  have hw : (TextureChangePrivate (some A) (some A) w).2 = w := by
    simp [TextureChangePrivate]
  have hs : ({ s with textures := s.textures.set slot (some A) } : D3D9CapturableState) = s := by
    rw [set_same hslot]
  constructor
  · refine ⟨_, _, SetTexture_eq slot (some A) (some A) s w hslot, hs, ?_, ?_, ?_, ?_, ?_⟩
    · rw [hw]
    · intro t; rw [hw]
    · rw [hw]; simp [eventsSince]
    · rw [hw]
    · intro k
      rw [hw]
      simp [eventsSince, replay]
  · have hev : eventsSince w (TextureChangePrivateAcquireFirst (some A) (some A) w).2
        = [RefEvent.acquire A, RefEvent.release A] := by
      simp [eventsSince, TextureChangePrivateAcquireFirst, World.acquire, World.release]
    refine ⟨(TextureChangePrivateAcquireFirst (some A) (some A) w).2, rfl, ?_, hev, ?_⟩
    · intro t
      by_cases ht : t = A
      · subst ht
        simp [TextureChangePrivateAcquireFirst, World.acquire, World.release]
      · simp [TextureChangePrivateAcquireFirst, World.acquire, World.release, ht]
    · intro k
      rw [hev]
      rcases k with _ | _ | k <;> simp [replay]

/-- C7 at a concrete input: slot 0 of `stateDistinct` holds texture 7; bind 7. -/
theorem SetTexture_rebind_same_witness :
    (stateDistinct.textures[0]? = some (some 7)) ∧
    (∃ s' w', SetTexture 0 (some 7) (stateDistinct, worldDistinct) = some (s', w') ∧
      s' = stateDistinct ∧ w'.refCount 7 = worldDistinct.refCount 7 ∧
      (∀ t, w'.refCount t = worldDistinct.refCount t) ∧
      eventsSince worldDistinct w' = [] ∧ w'.destroyed = worldDistinct.destroyed ∧
      (∀ k, worldDistinct.refCount 7
        ≤ replay worldDistinct.refCount ((eventsSince worldDistinct w').take k) 7)) ∧
    (∃ w', TextureChangePrivateAcquireFirst (some 7) (some 7) worldDistinct = (some 7, w') ∧
      (∀ t, w'.refCount t = worldDistinct.refCount t) ∧
      eventsSince worldDistinct w' = [RefEvent.acquire 7, RefEvent.release 7] ∧
      (∀ k, worldDistinct.refCount 7
        ≤ replay worldDistinct.refCount ((eventsSince worldDistinct w').take k) 7)) :=
  ⟨by decide, SetTexture_rebind_same stateDistinct worldDistinct 0 7 (by decide)⟩

/-- C8: for every slot holding a non-empty reference `A`, unbinding it, as the step
`TextureChangePrivate(textures[i], nullptr)` of the destructor does and as
binding the empty value does, returns, decrements the count of `A` by exactly 1,
changes no other count, and leaves the slot empty. -/
theorem unbind_decrements (s : D3D9CapturableState) (w : World) (slot : Nat)
    (A : Texture) (hslot : s.textures[slot]? = some (some A)) :
    ∃ s' w', dtorBody slot (s, w) = some (s', w') ∧
      SetTexture slot none (s, w) = some (s', w') ∧
      w'.refCount A = w.refCount A - 1 ∧
      (∀ t, t ≠ A → w'.refCount t = w.refCount t) ∧
      s'.textures[slot]? = some none ∧
      (∀ j, j ≠ slot → s'.textures[j]? = s.textures[j]?) ∧
      eventsSince w w' = [RefEvent.release A] := by
  have hlt := lt_length_of_getElem? hslot
  refine ⟨_, _, dtorBody_eq slot (some A) s w hslot, SetTexture_eq slot none (some A) s w hslot,
    ?_, ?_, ?_, ?_, ?_⟩
  · rw [TextureChangePrivate_refCount]
    simp
  · intro t hA
    rw [TextureChangePrivate_refCount]
    simp [Ne.symm hA]
  · exact List.getElem?_set_self hlt
  · intro j hj
    exact List.getElem?_set_ne (Ne.symm hj)
  · simp [eventsSince, TextureChangePrivate, World.release]

/-- C8 at a concrete input: slot 2 of `stateDistinct` holds texture 9. -/
theorem unbind_decrements_witness :
    (stateDistinct.textures[2]? = some (some 9)) ∧
    ∃ s' w', dtorBody 2 (stateDistinct, worldDistinct) = some (s', w') ∧
      SetTexture 2 none (stateDistinct, worldDistinct) = some (s', w') ∧
      w'.refCount 9 = worldDistinct.refCount 9 - 1 ∧
      (∀ t, t ≠ 9 → w'.refCount t = worldDistinct.refCount t) ∧
      s'.textures[2]? = some none ∧
      (∀ j, j ≠ 2 → s'.textures[j]? = stateDistinct.textures[j]?) ∧
      eventsSince worldDistinct w' = [RefEvent.release 9] :=
  ⟨by decide, unbind_decrements stateDistinct worldDistinct 2 9 (by decide)⟩

/-! ## Sequences of operations -/

/-- An operation that returns keeps the number of texture slots and leaves the
clip planes, the stream frequencies and the light indices as they were. -/
theorem Op_run_frame (fuel n : Nat) (hn : n < 2 ^ 32) (hf : n < fuel) (op : Op)
    (sw sw' : D3D9CapturableState × World) (hlen : sw.1.textures.length = n)
    (h : op.run fuel sw = some sw') :
    sw'.1.textures.length = n ∧ sw'.1.clipPlanes = sw.1.clipPlanes ∧
      sw'.1.streamFreq = sw.1.streamFreq ∧
      sw'.1.enabledLightIndices = sw.1.enabledLightIndices := by
  rcases op with ⟨slot, v⟩ | _
  · simp only [Op.run, SetTexture] at h
    split at h
    · exact absurd h (by simp)
    · injection h with h
      subst h
      simp [hlen]
  · simp only [Op.run] at h
    rw [dtor_eq fuel sw.1 sw.2 (by omega) (by omega)] at h
    injection h with h
    subst h
    simp [hlen]

/-- A valid operation returns. -/
theorem Op_run_isSome (fuel n : Nat) (hn : n < 2 ^ 32) (hf : n < fuel) (op : Op)
    (sw : D3D9CapturableState × World) (hlen : sw.1.textures.length = n)
    (hvalid : op.validFor n = true) : ∃ sw', op.run fuel sw = some sw' := by
  rcases op with ⟨slot, v⟩ | _
  · have hslot : slot < sw.1.textures.length := by
      simpa [Op.validFor, hlen] using hvalid
    exact ⟨_, SetTexture_eq slot v _ sw.1 sw.2 (List.getElem?_eq_getElem hslot)⟩
  · exact ⟨_, dtor_eq fuel sw.1 sw.2 (by omega) (by omega)⟩

/-- Every state reached by a sequence of operations has the light indices, the
clip planes and the stream frequencies of the state it started from. -/
theorem runOps_frame (fuel n : Nat) (hn : n < 2 ^ 32) (hf : n < fuel) (ops : List Op) :
    ∀ sw sw' : D3D9CapturableState × World, sw.1.textures.length = n →
      runOps fuel ops sw = some sw' →
      sw'.1.textures.length = n ∧ sw'.1.clipPlanes = sw.1.clipPlanes ∧
        sw'.1.streamFreq = sw.1.streamFreq ∧
        sw'.1.enabledLightIndices = sw.1.enabledLightIndices := by
  induction ops with
  | nil =>
    intro sw sw' hlen h
    simp only [runOps] at h
    injection h with h
    subst h
    exact ⟨hlen, rfl, rfl, rfl⟩
  | cons op ops ih =>
    intro sw sw' hlen h
    simp only [runOps] at h
    split at h
    · exact absurd h (by simp)
    · rename_i sw1 h1
      obtain ⟨a1, b1, c1, d1⟩ := Op_run_frame fuel n hn hf op sw sw1 hlen h1
      obtain ⟨a2, b2, c2, d2⟩ := ih sw1 sw' a1 h
      exact ⟨a2, b2.trans b1, c2.trans c1, d2.trans d1⟩

/-- A sequence of valid operations returns. -/
theorem runOps_isSome (fuel n : Nat) (hn : n < 2 ^ 32) (hf : n < fuel) (ops : List Op) :
    ∀ sw : D3D9CapturableState × World, sw.1.textures.length = n →
      (∀ op ∈ ops, op.validFor n = true) → ∃ sw', runOps fuel ops sw = some sw' := by
  induction ops with
  | nil => intro sw _ _; exact ⟨sw, rfl⟩
  | cons op ops ih =>
    intro sw hlen hvalid
    obtain ⟨sw1, h1⟩ := Op_run_isSome fuel n hn hf op sw hlen
      (hvalid op (List.mem_cons_self op ops))
    obtain ⟨a1, -⟩ := Op_run_frame fuel n hn hf op sw sw1 hlen h1
    obtain ⟨sw2, h2⟩ := ih sw1 a1 (fun o ho => hvalid o (List.mem_cons_of_mem op ho))
    exact ⟨sw2, by simp only [runOps, h1, h2]⟩

/-- C9: the constructor returns an object whose `enabledLightIndices` has the
capacity passed to it as length, and so has every state reached from it by any
sequence of texture slot mutations and runs of the release loop of the
destructor; every such sequence that names existing slots only does return. -/
theorem enabledLightIndices_length_constant (fuel : Nat) (raw : D3D9CapturableState)
    (maxEnabledLights : Nat) (w : World) (hraw : raw.Sized)
    (hm : maxEnabledLights < 2 ^ 32) (hfuel : loopBound raw maxEnabledLights < fuel) :
    ∃ s0, D3D9CapturableState.ctor fuel raw maxEnabledLights w = some (s0, w) ∧
      s0.enabledLightIndices.length = maxEnabledLights ∧
      (∀ (ops : List Op) (s' : D3D9CapturableState) (w' : World),
        runOps fuel ops (s0, w) = some (s', w') →
          s'.enabledLightIndices.length = maxEnabledLights) ∧
      (∀ ops : List Op, (∀ op ∈ ops, op.validFor raw.textures.length = true) →
        ∃ s' w', runOps fuel ops (s0, w) = some (s', w') ∧
          s'.enabledLightIndices.length = maxEnabledLights) := by
  have hn : raw.textures.length < 2 ^ 32 := hraw.1
  have hf : raw.textures.length < fuel := by
    simp only [loopBound, max_lt_iff] at hfuel
    exact hfuel.1.1
  refine ⟨_, ctor_eq fuel raw maxEnabledLights w hraw hm hfuel, by simp, ?_, ?_⟩
  · intro ops s' w' h
    obtain ⟨-, -, -, d⟩ := runOps_frame fuel raw.textures.length hn hf ops _ _ (by simp) h
    simp only at d
    rw [d]
    simp
  · intro ops hvalid
    obtain ⟨sw', h⟩ := runOps_isSome fuel raw.textures.length hn hf ops
      ({ textures := List.replicate raw.textures.length none
         clipPlanes := List.replicate raw.clipPlanes.length {}
         streamFreq := List.replicate raw.streamFreq.length 1
         enabledLightIndices := List.replicate maxEnabledLights UINT32_MAX }, w)
      (by simp) hvalid
    obtain ⟨-, -, -, d⟩ := runOps_frame fuel raw.textures.length hn hf ops _ _ (by simp) h
    refine ⟨sw'.1, sw'.2, h, ?_⟩
    simp only at d
    rw [d]
    simp

/-- C9 at a concrete input: capacity 8 on the sample object. -/
theorem enabledLightIndices_length_constant_witness :
    (rawSample.Sized ∧ 8 < 2 ^ 32 ∧ loopBound rawSample 8 < 22) ∧
    ∃ s0, D3D9CapturableState.ctor 22 rawSample 8 worldZero = some (s0, worldZero) ∧
      s0.enabledLightIndices.length = 8 ∧
      (∀ (ops : List Op) (s' : D3D9CapturableState) (w' : World),
        runOps 22 ops (s0, worldZero) = some (s', w') →
          s'.enabledLightIndices.length = 8) ∧
      (∀ ops : List Op, (∀ op ∈ ops, op.validFor rawSample.textures.length = true) →
        ∃ s' w', runOps 22 ops (s0, worldZero) = some (s', w') ∧
          s'.enabledLightIndices.length = 8) :=
  ⟨by decide, enabledLightIndices_length_constant 22 rawSample 8 worldZero
    (by decide) (by decide) (by decide)⟩

/-! ## Reference-count balance -/

/-- Storing `v` at a valid index changes the number of occurrences of `a` by the
occurrence lost at that index and the occurrence gained. -/
theorem count_set_int (xs : List TexPtr) (v a : TexPtr) :
    ∀ (i : Nat) (h : i < xs.length),
      ((xs.set i v).count a : Int)
        = xs.count a - (if xs[i] = a then 1 else 0) + (if v = a then 1 else 0) := by
  induction xs with
  | nil => intro i h; exact absurd h (Nat.not_lt_zero _)
  | cons x xs ih =>
    intro i h
    cases i with
    | zero =>
      simp only [List.set_cons_zero, List.count_cons, List.getElem_cons_zero, beq_iff_eq]
      split_ifs <;> push_cast <;> omega
    | succ i =>
      have h' : i < xs.length := by simpa using h
      simp only [List.set_cons_succ, List.count_cons, List.getElem_cons_succ, beq_iff_eq]
      have := ih i h'
      split_ifs at this ⊢ <;> push_cast <;> omega

/-- A sequence of bindings to existing slots, started in a state in which every
count exceeds its starting value by the number of slots holding the texture,
returns a state of the same kind. -/
theorem runOps_bindings_balance (fuel n : Nat) (c0 : Texture → Int)
    (bindings : List (Nat × TexPtr)) :
    ∀ sw : D3D9CapturableState × World, sw.1.textures.length = n →
      (∀ b ∈ bindings, b.1 < n) →
      (∀ t, sw.2.refCount t = c0 t + (sw.1.textures.count (some t) : Int)) →
      ∃ sw', runOps fuel (bindingOps bindings) sw = some sw' ∧
        sw'.1.textures.length = n ∧
        ∀ t, sw'.2.refCount t = c0 t + (sw'.1.textures.count (some t) : Int) := by
  induction bindings with
  | nil => intro sw hlen _ hbal; exact ⟨sw, rfl, hlen, hbal⟩
  | cons b bs ih =>
    intro sw hlen hvalid hbal
    have hb : b.1 < sw.1.textures.length := by
      rw [hlen]; exact hvalid b (List.mem_cons_self b bs)
    have h1 := SetTexture_eq b.1 b.2 _ sw.1 sw.2 (List.getElem?_eq_getElem hb)
    obtain ⟨sw', h2, hlen', hbal'⟩ := ih
      ({ sw.1 with textures := sw.1.textures.set b.1 b.2 },
        (TextureChangePrivate sw.1.textures[b.1] b.2 sw.2).2)
      (by simpa using hlen)
      (fun c hc => hvalid c (List.mem_cons_of_mem b hc))
      (by
        intro t
        show (TextureChangePrivate sw.1.textures[b.1] b.2 sw.2).2.refCount t
          = c0 t + ((sw.1.textures.set b.1 b.2).count (some t) : Int)
        rw [TextureChangePrivate_refCount, hbal t, count_set_int _ _ _ _ hb]
        omega)
    refine ⟨sw', ?_, hlen', hbal'⟩
    simp only [bindingOps, List.map_cons, runOps, Op.run, h1]
    exact h2

/-- C10: for every sequence of bindings to existing slots applied to a freshly
constructed object and followed by destruction, the run returns and every
texture's reference count ends equal to its value before construction.  In
particular, with counts of `A` and `B` starting at 0: after construction and
binding `A` to slot 0 the count of `A` is 1; after binding `B` to slot 0 the
count of `A` is 0 and the count of `B` is 1; after destruction both are 0. -/
theorem lifetime_refCount_balance (fuel : Nat) (raw : D3D9CapturableState)
    (maxEnabledLights : Nat) (w : World) (bindings : List (Nat × TexPtr))
    (A B : Texture) (hraw : raw.Sized) (hm : maxEnabledLights < 2 ^ 32)
    (hfuel : loopBound raw maxEnabledLights < fuel)
    (hvalid : ∀ b ∈ bindings, b.1 < raw.textures.length) :
    (∃ s' w', lifetime fuel raw maxEnabledLights bindings w = some (s', w') ∧
      ∀ t, w'.refCount t = w.refCount t) ∧
    (A ≠ B → 0 < raw.textures.length → w.refCount A = 0 → w.refCount B = 0 →
      ∃ s0 s1 w1 s2 w2 s3 w3,
        D3D9CapturableState.ctor fuel raw maxEnabledLights w = some (s0, w) ∧
        SetTexture 0 (some A) (s0, w) = some (s1, w1) ∧
        SetTexture 0 (some B) (s1, w1) = some (s2, w2) ∧
        D3D9CapturableState.dtor fuel s2 w2 = some (s3, w3) ∧
        lifetime fuel raw maxEnabledLights [(0, some A), (0, some B)] w = some (s3, w3) ∧
        s0.enabledLightIndices.length = maxEnabledLights ∧
        w1.refCount A = 1 ∧ w1.refCount B = 0 ∧
        w2.refCount A = 0 ∧ w2.refCount B = 1 ∧
        w3.refCount A = 0 ∧ w3.refCount B = 0) := by
  have hn : raw.textures.length < 2 ^ 32 := hraw.1
  have hf : raw.textures.length < fuel := by
    simp only [loopBound, max_lt_iff] at hfuel
    exact hfuel.1.1
  have hctor := ctor_eq fuel raw maxEnabledLights w hraw hm hfuel
  constructor
  · obtain ⟨sw, h1, hlen, hbal⟩ := runOps_bindings_balance fuel raw.textures.length
      w.refCount bindings
      ({ textures := List.replicate raw.textures.length none
         clipPlanes := List.replicate raw.clipPlanes.length {}
         streamFreq := List.replicate raw.streamFreq.length 1
         enabledLightIndices := List.replicate maxEnabledLights UINT32_MAX }, w)
      (by simp) hvalid (by intro t; simp [List.count_replicate])
    have h2 := dtor_eq fuel sw.1 sw.2 (by omega) (by omega)
    refine ⟨_, _, by simp only [lifetime, hctor, h1]; exact h2, ?_⟩
    intro t
    rw [foldl_releaseSlot_refCount, hbal t]
    omega
  · intro hAB hpos hA0 hB0
    obtain ⟨k, hk⟩ : ∃ k, raw.textures.length = k + 1 :=
      ⟨raw.textures.length - 1, by omega⟩
    have hBA : B ≠ A := fun e => hAB e.symm
    have e1 := SetTexture_eq 0 (some A) none
      { textures := List.replicate raw.textures.length none
        clipPlanes := List.replicate raw.clipPlanes.length {}
        streamFreq := List.replicate raw.streamFreq.length 1
        enabledLightIndices := List.replicate maxEnabledLights UINT32_MAX } w
      (by simp [hk, List.replicate_succ])
    have e2 := SetTexture_eq 0 (some B) (some A)
      { textures := (List.replicate raw.textures.length none).set 0 (some A)
        clipPlanes := List.replicate raw.clipPlanes.length {}
        streamFreq := List.replicate raw.streamFreq.length 1
        enabledLightIndices := List.replicate maxEnabledLights UINT32_MAX }
      (TextureChangePrivate none (some A) w).2
      (by simp [hk, List.replicate_succ])
    have e3 := dtor_eq fuel
      { textures := ((List.replicate raw.textures.length none).set 0 (some A)).set 0 (some B)
        clipPlanes := List.replicate raw.clipPlanes.length {}
        streamFreq := List.replicate raw.streamFreq.length 1
        enabledLightIndices := List.replicate maxEnabledLights UINT32_MAX }
      (TextureChangePrivate (some A) (some B) (TextureChangePrivate none (some A) w).2).2
      (by simpa using hn) (by simpa using hf)
    refine ⟨_, _, _, _, _, _, _, hctor, e1, e2, e3, ?_, by simp, ?_, ?_, ?_, ?_, ?_, ?_⟩
    · simp only [lifetime, hctor, bindingOps, List.map_cons, List.map_nil, runOps, Op.run,
        e1, e2]
      exact e3
    · simp [TextureChangePrivate_refCount, hA0]
    · simp [TextureChangePrivate_refCount, hB0, hAB]
    · simp [TextureChangePrivate_refCount, hA0, hBA]
    · simp [TextureChangePrivate_refCount, hB0, hAB]
    · rw [foldl_releaseSlot_refCount]
      simp [TextureChangePrivate_refCount, hA0, hBA, hk,
        List.replicate_succ, List.count_cons, List.count_replicate]
    · rw [foldl_releaseSlot_refCount]
      simp [TextureChangePrivate_refCount, hB0, hAB, hk,
        List.replicate_succ, List.count_cons, List.count_replicate]

/-- C10 at a concrete input: capacity 8 on the sample object, the bindings of the
scenario followed by two more, textures 1 and 2 for `A` and `B`. -/
theorem lifetime_refCount_balance_witness :
    (rawSample.Sized ∧ 8 < 2 ^ 32 ∧ loopBound rawSample 8 < 22 ∧
      (∀ b ∈ [(0, some 1), (0, some 2), (5, some 1), (20, none)],
        b.1 < rawSample.textures.length) ∧
      (1 : Texture) ≠ 2 ∧ 0 < rawSample.textures.length ∧
      worldZero.refCount 1 = 0 ∧ worldZero.refCount 2 = 0) ∧
    (∃ s' w', lifetime 22 rawSample 8 [(0, some 1), (0, some 2), (5, some 1), (20, none)]
        worldZero = some (s', w') ∧
      ∀ t, w'.refCount t = worldZero.refCount t) ∧
    (∃ s0 s1 w1 s2 w2 s3 w3,
        D3D9CapturableState.ctor 22 rawSample 8 worldZero = some (s0, worldZero) ∧
        SetTexture 0 (some 1) (s0, worldZero) = some (s1, w1) ∧
        SetTexture 0 (some 2) (s1, w1) = some (s2, w2) ∧
        D3D9CapturableState.dtor 22 s2 w2 = some (s3, w3) ∧
        lifetime 22 rawSample 8 [(0, some 1), (0, some 2)] worldZero = some (s3, w3) ∧
        s0.enabledLightIndices.length = 8 ∧
        w1.refCount 1 = 1 ∧ w1.refCount 2 = 0 ∧
        w2.refCount 1 = 0 ∧ w2.refCount 2 = 1 ∧
        w3.refCount 1 = 0 ∧ w3.refCount 2 = 0) :=
  ⟨by decide,
    (lifetime_refCount_balance 22 rawSample 8 worldZero
      [(0, some 1), (0, some 2), (5, some 1), (20, none)] 1 2
      (by decide) (by decide) (by decide) (by decide)).1,
    (lifetime_refCount_balance 22 rawSample 8 worldZero
      [(0, some 1), (0, some 2), (5, some 1), (20, none)] 1 2
      (by decide) (by decide) (by decide) (by decide)).2
      (by decide) (by decide) rfl rfl⟩

/-! ## Claims on the release loop of the destructor -/

/-- The events since a world whose trace was extended by `evs` are `evs`. -/
theorem eventsSince_of_trace (w w' : World) (evs : List RefEvent)
    (h : w'.trace = w.trace ++ evs) : eventsSince w w' = evs := by
  simp [eventsSince, h]

/-- The held textures are the non-empty entries of the slots read from index 0 to
the last index. -/
theorem filterMap_id_eq_range (xs : List TexPtr) :
    xs.filterMap id = (List.range xs.length).filterMap (fun i => xs[i]?.join) := by
  induction xs with
  | nil => rfl
  | cons x xs ih =>
    rw [List.length_cons, List.range_succ_eq_map, List.filterMap_cons, List.filterMap_cons,
      List.filterMap_map, ih]
    rcases x with _ | a <;> simp [Function.comp_def]

/-- Releasing empty slots leaves the world as it is. -/
theorem foldl_releaseSlot_replicate_none (n : Nat) (w : World) :
    (List.replicate n (none : TexPtr)).foldl releaseSlot w = w := by
  induction n with
  | zero => rfl
  | succ n ih =>
    rw [List.replicate_succ, List.foldl_cons]
    simpa [releaseSlot, TextureChangePrivate] using ih

/-- C11: the destructor releases texture references in ascending slot order: it
returns, and the events it performs are exactly one release for each non-empty
entry of `textures`, read from index 0 to `textures.size() - 1`, each once. -/
theorem dtor_release_order (fuel : Nat) (s : D3D9CapturableState) (w : World)
    (hlen : s.textures.length < 2 ^ 32) (hfuel : s.textures.length < fuel) :
    ∃ s' w', D3D9CapturableState.dtor fuel s w = some (s', w') ∧
      eventsSince w w'
        = ((List.range s.textures.length).filterMap fun i => s.textures[i]?.join).map
            RefEvent.release ∧
      eventsSince w w' = s.heldTextures.map RefEvent.release ∧
      (eventsSince w w').length = s.nonEmptySlots := by
  have hev := eventsSince_of_trace w _ _ (foldl_releaseSlot_trace s.textures w)
  refine ⟨_, _, dtor_eq fuel s w hlen hfuel, ?_, hev, ?_⟩
  · rw [hev, filterMap_id_eq_range]
  · rw [hev, List.length_map]
    exact length_filterMap_id _

/-- C11 at a concrete input: slots 0 and 2 hold textures 7 and 9. -/
theorem dtor_release_order_witness :
    (stateDistinct.textures.length < 2 ^ 32 ∧ stateDistinct.textures.length < 22) ∧
    ∃ s' w', D3D9CapturableState.dtor 22 stateDistinct worldDistinct = some (s', w') ∧
      eventsSince worldDistinct w'
        = ((List.range stateDistinct.textures.length).filterMap
            fun i => stateDistinct.textures[i]?.join).map RefEvent.release ∧
      eventsSince worldDistinct w' = stateDistinct.heldTextures.map RefEvent.release ∧
      (eventsSince worldDistinct w').length = stateDistinct.nonEmptySlots :=
  ⟨by decide, dtor_release_order 22 stateDistinct worldDistinct (by decide) (by decide)⟩

/-- C12: destruction modifies only the texture slots: the release loop returns, and
`clipPlanes`, `streamFreq` and `enabledLightIndices` after it are identical to
those before it; so it is after every single step of the loop. -/
theorem dtor_frame (fuel : Nat) (s : D3D9CapturableState) (w : World)
    (hlen : s.textures.length < 2 ^ 32) (hfuel : s.textures.length < fuel) :
    (∃ s' w', D3D9CapturableState.dtor fuel s w = some (s', w') ∧
      s'.clipPlanes = s.clipPlanes ∧ s'.streamFreq = s.streamFreq ∧
      s'.enabledLightIndices = s.enabledLightIndices) ∧
    (∀ i, i < s.textures.length → ∀ (s1 : D3D9CapturableState) (w1 : World),
      s1.textures.length = s.textures.length →
      ∃ s2 w2, dtorBody i (s1, w1) = some (s2, w2) ∧
        s2.clipPlanes = s1.clipPlanes ∧ s2.streamFreq = s1.streamFreq ∧
        s2.enabledLightIndices = s1.enabledLightIndices) := by
  constructor
  · exact ⟨_, _, dtor_eq fuel s w hlen hfuel, rfl, rfl, rfl⟩
  · intro i hi s1 w1 h1
    have hi1 : i < s1.textures.length := by omega
    exact ⟨_, _, dtorBody_eq i _ s1 w1 (List.getElem?_eq_getElem hi1), rfl, rfl, rfl⟩

/-- C12 at a concrete input: an object with two bound textures, six clip planes,
sixteen stream frequencies and eight light indices. -/
theorem dtor_frame_witness :
    (stateDistinct.textures.length < 2 ^ 32 ∧ stateDistinct.textures.length < 30) ∧
    (∃ s' w', D3D9CapturableState.dtor 30 stateDistinct worldDistinct = some (s', w') ∧
      s'.clipPlanes = stateDistinct.clipPlanes ∧ s'.streamFreq = stateDistinct.streamFreq ∧
      s'.enabledLightIndices = stateDistinct.enabledLightIndices) ∧
    (∀ i, i < stateDistinct.textures.length → ∀ (s1 : D3D9CapturableState) (w1 : World),
      s1.textures.length = stateDistinct.textures.length →
      ∃ s2 w2, dtorBody i (s1, w1) = some (s2, w2) ∧
        s2.clipPlanes = s1.clipPlanes ∧ s2.streamFreq = s1.streamFreq ∧
        s2.enabledLightIndices = s1.enabledLightIndices) :=
  ⟨by decide, dtor_frame 30 stateDistinct worldDistinct (by decide) (by decide)⟩

/-- C13: when the same texture is held by several slots, the destructor decrements
its count by exactly the number of slots holding it: the loop returns and, for
every texture `t`, the count of `t` after it is the count before it minus the
number of slots `i` with `textures[i] = t`.  The counts that change are those of
the held textures, and their number is at most the number of non-empty slots;
it is less for some object (one with two slots holding the same texture). -/
theorem dtor_refCount_per_slot (fuel : Nat) (s : D3D9CapturableState) (w : World)
    (hlen : s.textures.length < 2 ^ 32) (hfuel : s.textures.length < fuel) :
    ∃ s' w', D3D9CapturableState.dtor fuel s w = some (s', w') ∧
      (∀ t, w'.refCount t = w.refCount t - (s.textures.count (some t) : Int)) ∧
      (∀ t, w'.refCount t ≠ w.refCount t ↔ t ∈ s.heldTextures.dedup) ∧
      s.heldTextures.dedup.length ≤ s.nonEmptySlots ∧
      (∃ s0 : D3D9CapturableState, s0.textures.length < 2 ^ 32 ∧
        s0.heldTextures.dedup.length < s0.nonEmptySlots) := by
  refine ⟨_, _, dtor_eq fuel s w hlen hfuel, fun t => foldl_releaseSlot_refCount _ _ t, ?_, ?_,
    ⟨stateShared, by decide, by decide⟩⟩
  · intro t
    rw [foldl_releaseSlot_refCount, List.mem_dedup, count_some_eq_count_filterMap,
      ← List.count_pos_iff]
    unfold D3D9CapturableState.heldTextures
    omega
  · unfold D3D9CapturableState.nonEmptySlots
    rw [← length_filterMap_id]
    exact (List.dedup_sublist _).length_le

/-- C13 at a concrete input: slots 0 and 1 hold the same texture 7. -/
theorem dtor_refCount_per_slot_witness :
    (stateShared.textures.length < 2 ^ 32 ∧ stateShared.textures.length < 22) ∧
    ∃ s' w', D3D9CapturableState.dtor 22 stateShared worldShared = some (s', w') ∧
      (∀ t, w'.refCount t
        = worldShared.refCount t - (stateShared.textures.count (some t) : Int)) ∧
      (∀ t, w'.refCount t ≠ worldShared.refCount t ↔ t ∈ stateShared.heldTextures.dedup) ∧
      stateShared.heldTextures.dedup.length ≤ stateShared.nonEmptySlots ∧
      (∃ s0 : D3D9CapturableState, s0.textures.length < 2 ^ 32 ∧
        s0.heldTextures.dedup.length < s0.nonEmptySlots) :=
  ⟨by decide, dtor_refCount_per_slot 22 stateShared worldShared (by decide) (by decide)⟩

/-- C14: constructing an object and destroying it with no binding in between
changes no reference count, for every `maxEnabledLights`: the constructed
object has only empty slots, every step of the destructor on it is
`TextureChangePrivate(nullptr, nullptr)`, which returns the world as it is, and
the whole run returns the world it started from. -/
theorem construct_destroy_noop (fuel : Nat) (raw : D3D9CapturableState)
    (maxEnabledLights : Nat) (w : World) (hraw : raw.Sized)
    (hm : maxEnabledLights < 2 ^ 32) (hfuel : loopBound raw maxEnabledLights < fuel) :
    ∃ s0, D3D9CapturableState.ctor fuel raw maxEnabledLights w = some (s0, w) ∧
      (∀ i, i < s0.textures.length →
        s0.textures[i]? = some none ∧ dtorBody i (s0, w) = some (s0, w)) ∧
      TextureChangePrivate none none w = (none, w) ∧
      D3D9CapturableState.dtor fuel s0 w = some (s0, w) ∧
      lifetime fuel raw maxEnabledLights [] w = some (s0, w) ∧
      (∀ s' w', lifetime fuel raw maxEnabledLights [] w = some (s', w') →
        ∀ t, w'.refCount t = w.refCount t) := by
  have hn : raw.textures.length < 2 ^ 32 := hraw.1
  have hf : raw.textures.length < fuel := by
    simp only [loopBound, max_lt_iff] at hfuel
    exact hfuel.1.1
  have hctor := ctor_eq fuel raw maxEnabledLights w hraw hm hfuel
  have hdtor := dtor_eq fuel
    { textures := List.replicate raw.textures.length none
      clipPlanes := List.replicate raw.clipPlanes.length {}
      streamFreq := List.replicate raw.streamFreq.length 1
      enabledLightIndices := List.replicate maxEnabledLights UINT32_MAX } w
    (by simpa using hn) (by simpa using hf)
  simp only [List.length_replicate, foldl_releaseSlot_replicate_none] at hdtor
  have hlife : lifetime fuel raw maxEnabledLights [] w = some
      ({ textures := List.replicate raw.textures.length none
         clipPlanes := List.replicate raw.clipPlanes.length {}
         streamFreq := List.replicate raw.streamFreq.length 1
         enabledLightIndices := List.replicate maxEnabledLights UINT32_MAX }, w) := by
    simp only [lifetime, hctor, bindingOps, List.map_nil, runOps]
    exact hdtor
  refine ⟨_, hctor, ?_, by simp [TextureChangePrivate], hdtor, hlife, ?_⟩
  · intro i hi
    have hi' : i < raw.textures.length := by simpa using hi
    have hget : (List.replicate raw.textures.length (none : TexPtr))[i]? = some none := by
      simp [List.getElem?_replicate, hi']
    refine ⟨hget, ?_⟩
    rw [dtorBody_eq i none _ w hget]
    simp [TextureChangePrivate, set_same hget]
  · intro s' w' h t
    rw [hlife] at h
    injection h with h
    injection h with _ h2
    rw [← h2]

/-- C14 at a concrete input: capacity 8 on the sample object, in a world where
textures 7 and 9 are referenced from elsewhere. -/
theorem construct_destroy_noop_witness :
    (rawSample.Sized ∧ 8 < 2 ^ 32 ∧ loopBound rawSample 8 < 22) ∧
    ∃ s0, D3D9CapturableState.ctor 22 rawSample 8 worldDistinct = some (s0, worldDistinct) ∧
      (∀ i, i < s0.textures.length →
        s0.textures[i]? = some none ∧
          dtorBody i (s0, worldDistinct) = some (s0, worldDistinct)) ∧
      TextureChangePrivate none none worldDistinct = (none, worldDistinct) ∧
      D3D9CapturableState.dtor 22 s0 worldDistinct = some (s0, worldDistinct) ∧
      lifetime 22 rawSample 8 [] worldDistinct = some (s0, worldDistinct) ∧
      (∀ s' w', lifetime 22 rawSample 8 [] worldDistinct = some (s', w') →
        ∀ t, w'.refCount t = worldDistinct.refCount t) :=
  ⟨by decide, construct_destroy_noop 22 rawSample 8 worldDistinct
    (by decide) (by decide) (by decide)⟩

/-- C15: the release loop of the destructor is idempotent: it returns, every texture
slot is empty after it, and running the same loop a second time returns the
same object and the same world, so that it changes neither any slot nor any
reference count (and performs no release). -/
theorem dtor_idempotent (fuel : Nat) (s : D3D9CapturableState) (w : World)
    (hlen : s.textures.length < 2 ^ 32) (hfuel : s.textures.length < fuel) :
    ∃ s1 w1, D3D9CapturableState.dtor fuel s w = some (s1, w1) ∧
      s1.textures.length = s.textures.length ∧
      (∀ slot ∈ s1.textures, slot = none) ∧
      D3D9CapturableState.dtor fuel s1 w1 = some (s1, w1) ∧
      (∀ s2 w2, D3D9CapturableState.dtor fuel s1 w1 = some (s2, w2) →
        s2.textures = s1.textures ∧ (∀ t, w2.refCount t = w1.refCount t) ∧
          eventsSince w1 w2 = []) := by
  have h1 := dtor_eq fuel s w hlen hfuel
  have h2 := dtor_eq fuel
    { s with textures := List.replicate s.textures.length none }
    (s.textures.foldl releaseSlot w) (by simpa using hlen) (by simpa using hfuel)
  simp only [List.length_replicate, foldl_releaseSlot_replicate_none] at h2
  refine ⟨_, _, h1, by simp, ?_, h2, ?_⟩
  · intro slot hslot
    exact List.eq_of_mem_replicate hslot
  · intro s2 w2 h
    rw [h2] at h
    injection h with h
    injection h with hs hw
    subst hs
    subst hw
    exact ⟨rfl, fun _ => rfl, by simp [eventsSince]⟩

/-- C15 at a concrete input: slots 0 and 1 hold the same texture 7. -/
theorem dtor_idempotent_witness :
    (stateShared.textures.length < 2 ^ 32 ∧ stateShared.textures.length < 25) ∧
    ∃ s1 w1, D3D9CapturableState.dtor 25 stateShared worldShared = some (s1, w1) ∧
      s1.textures.length = stateShared.textures.length ∧
      (∀ slot ∈ s1.textures, slot = none) ∧
      D3D9CapturableState.dtor 25 s1 w1 = some (s1, w1) ∧
      (∀ s2 w2, D3D9CapturableState.dtor 25 s1 w1 = some (s2, w2) →
        s2.textures = s1.textures ∧ (∀ t, w2.refCount t = w1.refCount t) ∧
          eventsSince w1 w2 = []) :=
  ⟨by decide, dtor_idempotent 25 stateShared worldShared (by decide) (by decide)⟩

/-! ## Termination and bounds of the loops -/

/-- The first component of `forLoopRun` is `forLoop`. -/
theorem forLoopRun_fst {σ : Type} (size : σ → Nat) (body : Nat → σ → Option σ) :
    ∀ (fuel i : Nat) (s : σ),
      (forLoopRun size body fuel i s).1 = forLoop size body fuel i s := by
  intro fuel
  induction fuel with
  | zero => intro i s; rfl
  | succ fuel ih =>
    intro i s
    unfold forLoopRun forLoop
    by_cases hlt : i < size s
    · rw [if_pos hlt, if_pos hlt]
      cases body i s with
      | none => rfl
      | some s' => exact ih _ _
    · rw [if_neg hlt, if_neg hlt]

/-- Under the hypotheses of `forLoop_eq`, the counter takes the values `i`, `i + 1`,
..., `n - 1` at the entries of the body. -/
theorem forLoopRun_eq {σ : Type} (size : σ → Nat) (body : Nat → σ → Option σ) (n : Nat)
    (f : Nat → σ) (hn : n < 2 ^ 32) (hsize : ∀ i, i ≤ n → size (f i) = n)
    (hstep : ∀ i, i < n → body i (f i) = some (f (i + 1))) :
    ∀ fuel i, i ≤ n → n - i < fuel →
      forLoopRun size body fuel i (f i) = (some (f n), List.range' i (n - i)) := by
  intro fuel
  induction fuel with
  | zero => intro i _ h; omega
  | succ fuel ih =>
    intro i hi hfuel
    unfold forLoopRun
    rw [hsize i hi]
    by_cases hlt : i < n
    · have hmod : (i + 1) % 2 ^ 32 = i + 1 := Nat.mod_eq_of_lt (by omega)
      have hsub : n - i = (n - (i + 1)) + 1 := by omega
      rw [if_pos hlt, hstep i hlt]
      simp only [hmod, ih (i + 1) (by omega) (by omega)]
      rw [hsub, List.range'_succ]
    · have : i = n := by omega
      rw [if_neg hlt, this]
      simp

/-- A run that ends in a result after entering the body at 0, ..., `n - 1`, with
`n < 2^32`, is safe. -/
theorem SafeRun_of_eq {σ : Type} (r : Option σ × List Nat) (s : σ) (n : Nat)
    (hn : n < 2 ^ 32) (h : r = (some s, List.range n)) : SafeRun r n := by
  subst h
  refine ⟨rfl, rfl, ?_⟩
  intro i hi
  have : i < n := List.mem_range.mp hi
  omega

/-- The run of a loop that assigns `v` to every element of one member: it ends in
the filled object after entering the body at every index of the member. -/
theorem forLoopRun_fill {σ α : Type} (get : σ → List α) (put : List α → σ → σ) (v : α)
    (body : Nat → σ → Option σ)
    (hget : ∀ xs s, get (put xs s) = xs)
    (hput : ∀ xs ys s, put xs (put ys s) = put xs s)
    (hid : ∀ s, put (get s) s = s)
    (hbody : ∀ i s, body i s = (assignAt (get s) i v).map fun xs => put xs s)
    (s : σ) (fuel : Nat) (hlen : (get s).length < 2 ^ 32) (hfuel : (get s).length < fuel) :
    forLoopRun (fun s => (get s).length) body fuel 0 s
      = (some (put (List.replicate (get s).length v) s), List.range (get s).length) := by
  have h := forLoopRun_eq (fun s => (get s).length) body (get s).length
    (fun i => put (List.replicate i v ++ (get s).drop i) s) hlen
    (by intro i hi; simp [hget]; omega)
    (by
      intro i hi
      have hi' : i < (List.replicate i v ++ List.drop i (get s)).length := by
        simp; omega
      rw [hbody, hget, assignAt, if_pos hi', Option.map_some', hput, set_fill _ _ _ hi])
    fuel 0 (Nat.zero_le _) (by omega)
  simpa [hid, List.range_eq_range'] using h

/-- The run of the release loop of the destructor: it ends in the result of the
destructor after entering the body at every index of `textures`. -/
theorem dtor_run_eq (fuel : Nat) (s : D3D9CapturableState) (w : World)
    (hlen : s.textures.length < 2 ^ 32) (hfuel : s.textures.length < fuel) :
    forLoopRun (fun sw : D3D9CapturableState × World => sw.1.textures.length)
        dtorBody fuel 0 (s, w)
      = (some ({ s with textures := List.replicate s.textures.length none },
          s.textures.foldl releaseSlot w), List.range s.textures.length) := by
  have h := forLoopRun_eq (fun sw : D3D9CapturableState × World => sw.1.textures.length)
    dtorBody s.textures.length
    (fun i => ({ s with textures := List.replicate i none ++ s.textures.drop i },
      (s.textures.take i).foldl releaseSlot w)) hlen
    (by intro i hi; simp; omega)
    (by
      intro i hi
      have hget : (List.replicate i (none : TexPtr) ++ List.drop i s.textures)[i]?
          = some s.textures[i] := by
        rw [List.getElem?_append_right (by simp)]
        simp [List.getElem?_drop, List.getElem?_eq_getElem hi]
      simp only [dtorBody, hget, TextureChangePrivate_fst, set_fill _ _ _ hi,
        List.take_succ, List.foldl_append, List.getElem?_eq_getElem hi, Option.toList,
        List.foldl_cons, List.foldl_nil, releaseSlot])
    fuel 0 (Nat.zero_le _) (by omega)
  simpa [List.range_eq_range'] using h

/-- C16: for every `maxEnabledLights` from 0 to `2^32 - 1`, each of the four loops of
the constructor and the loop of the destructor terminates with a result, its
body is entered with the counter at 0, 1, ..., size - 1 in this order, every one
of these values is an index of the array the body indexes, and no increment of
the `uint32_t` counter wraps; the results of the four loops are the states the
constructor passes through, and the result of the fifth is the destructor's. -/
theorem loops_terminate_in_bounds (fuel : Nat) (raw : D3D9CapturableState)
    (maxEnabledLights : Nat) (w : World) (s : D3D9CapturableState) (wd : World)
    (hraw : raw.Sized) (hm : maxEnabledLights < 2 ^ 32)
    (hfuel : loopBound raw maxEnabledLights < fuel)
    (hs : s.textures.length < 2 ^ 32) (hsfuel : s.textures.length < fuel) :
    ∃ s1 s2 s3 s5 sd,
      forLoopRun (fun s => s.textures.length) ctorTexturesBody fuel 0 raw
        = (some s1, List.range raw.textures.length) ∧
      SafeRun (forLoopRun (fun s => s.textures.length) ctorTexturesBody fuel 0 raw)
        raw.textures.length ∧
      forLoopRun (fun s => s.clipPlanes.length) ctorClipPlanesBody fuel 0 s1
        = (some s2, List.range s1.clipPlanes.length) ∧
      SafeRun (forLoopRun (fun s => s.clipPlanes.length) ctorClipPlanesBody fuel 0 s1)
        s1.clipPlanes.length ∧
      forLoopRun (fun s => s.streamFreq.length) ctorStreamFreqBody fuel 0 s2
        = (some s3, List.range s2.streamFreq.length) ∧
      SafeRun (forLoopRun (fun s => s.streamFreq.length) ctorStreamFreqBody fuel 0 s2)
        s2.streamFreq.length ∧
      forLoopRun (fun s => s.enabledLightIndices.length) ctorLightsBody fuel 0
          { s3 with enabledLightIndices := resize s3.enabledLightIndices maxEnabledLights }
        = (some s5, List.range maxEnabledLights) ∧
      SafeRun (forLoopRun (fun s => s.enabledLightIndices.length) ctorLightsBody fuel 0
          { s3 with enabledLightIndices := resize s3.enabledLightIndices maxEnabledLights })
        maxEnabledLights ∧
      s5.enabledLightIndices.length = maxEnabledLights ∧
      D3D9CapturableState.ctor fuel raw maxEnabledLights w = some (s5, w) ∧
      forLoopRun (fun sw : D3D9CapturableState × World => sw.1.textures.length)
          dtorBody fuel 0 (s, wd)
        = (some sd, List.range s.textures.length) ∧
      SafeRun (forLoopRun (fun sw : D3D9CapturableState × World => sw.1.textures.length)
          dtorBody fuel 0 (s, wd)) s.textures.length ∧
      D3D9CapturableState.dtor fuel s wd = some sd := by
  obtain ⟨ht, hc, hsf⟩ := hraw
  have hfuel' := hfuel
  simp only [loopBound, max_lt_iff] at hfuel'
  obtain ⟨⟨hft, hfc⟩, hfs, hfm⟩ := hfuel'
  have h1 := forLoopRun_fill (fun s : D3D9CapturableState => s.textures)
    (fun xs s => { s with textures := xs }) none ctorTexturesBody
    (fun _ _ => rfl) (fun _ _ _ => rfl) (fun _ => rfl) (fun _ _ => rfl) raw fuel ht hft
  have h2 := forLoopRun_fill (fun s : D3D9CapturableState => s.clipPlanes)
    (fun xs s => { s with clipPlanes := xs }) {} ctorClipPlanesBody
    (fun _ _ => rfl) (fun _ _ _ => rfl) (fun _ => rfl) (fun _ _ => rfl)
    { raw with textures := List.replicate raw.textures.length none } fuel hc hfc
  have h3 := forLoopRun_fill (fun s : D3D9CapturableState => s.streamFreq)
    (fun xs s => { s with streamFreq := xs }) 1 ctorStreamFreqBody
    (fun _ _ => rfl) (fun _ _ _ => rfl) (fun _ => rfl) (fun _ _ => rfl)
    { raw with textures := List.replicate raw.textures.length none
               clipPlanes := List.replicate raw.clipPlanes.length {} } fuel hsf hfs
  have h4 := forLoopRun_fill (fun s : D3D9CapturableState => s.enabledLightIndices)
    (fun xs s => { s with enabledLightIndices := xs }) UINT32_MAX ctorLightsBody
    (fun _ _ => rfl) (fun _ _ _ => rfl) (fun _ => rfl) (fun _ _ => rfl)
    { textures := List.replicate raw.textures.length none
      clipPlanes := List.replicate raw.clipPlanes.length {}
      streamFreq := List.replicate raw.streamFreq.length 1
      enabledLightIndices := resize raw.enabledLightIndices maxEnabledLights } fuel
    (by simpa [resize_length] using hm) (by simpa [resize_length] using hfm)
  simp only [resize_length] at h4
  have h5 := dtor_run_eq fuel s wd hs hsfuel
  exact ⟨_, _, _, _, _, h1, SafeRun_of_eq _ _ _ ht h1, h2, SafeRun_of_eq _ _ _ hc h2,
    h3, SafeRun_of_eq _ _ _ hsf h3, h4, SafeRun_of_eq _ _ _ hm h4, by simp,
    ctor_eq fuel raw maxEnabledLights w ⟨ht, hc, hsf⟩ hm hfuel,
    h5, SafeRun_of_eq _ _ _ hs h5, dtor_eq fuel s wd hs hsfuel⟩

/-- C16 at a concrete input: the largest capacity, `2^32 - 1`, on the sample
object, with `2^32` units of fuel, and the destructor on `stateDistinct`. -/
theorem loops_terminate_in_bounds_witness :
    (rawSample.Sized ∧ 4294967295 < 2 ^ 32 ∧ loopBound rawSample 4294967295 < 4294967296 ∧
      stateDistinct.textures.length < 2 ^ 32 ∧
      stateDistinct.textures.length < 4294967296) ∧
    ∃ s1 s2 s3 s5 sd,
      forLoopRun (fun s => s.textures.length) ctorTexturesBody 4294967296 0 rawSample
        = (some s1, List.range rawSample.textures.length) ∧
      SafeRun (forLoopRun (fun s => s.textures.length) ctorTexturesBody 4294967296 0
        rawSample) rawSample.textures.length ∧
      forLoopRun (fun s => s.clipPlanes.length) ctorClipPlanesBody 4294967296 0 s1
        = (some s2, List.range s1.clipPlanes.length) ∧
      SafeRun (forLoopRun (fun s => s.clipPlanes.length) ctorClipPlanesBody 4294967296 0 s1)
        s1.clipPlanes.length ∧
      forLoopRun (fun s => s.streamFreq.length) ctorStreamFreqBody 4294967296 0 s2
        = (some s3, List.range s2.streamFreq.length) ∧
      SafeRun (forLoopRun (fun s => s.streamFreq.length) ctorStreamFreqBody 4294967296 0 s2)
        s2.streamFreq.length ∧
      forLoopRun (fun s => s.enabledLightIndices.length) ctorLightsBody 4294967296 0
          { s3 with enabledLightIndices := resize s3.enabledLightIndices 4294967295 }
        = (some s5, List.range 4294967295) ∧
      SafeRun (forLoopRun (fun s => s.enabledLightIndices.length) ctorLightsBody 4294967296 0
          { s3 with enabledLightIndices := resize s3.enabledLightIndices 4294967295 })
        4294967295 ∧
      s5.enabledLightIndices.length = 4294967295 ∧
      D3D9CapturableState.ctor 4294967296 rawSample 4294967295 worldZero
        = some (s5, worldZero) ∧
      forLoopRun (fun sw : D3D9CapturableState × World => sw.1.textures.length)
          dtorBody 4294967296 0 (stateDistinct, worldDistinct)
        = (some sd, List.range stateDistinct.textures.length) ∧
      SafeRun (forLoopRun (fun sw : D3D9CapturableState × World => sw.1.textures.length)
          dtorBody 4294967296 0 (stateDistinct, worldDistinct))
        stateDistinct.textures.length ∧
      D3D9CapturableState.dtor 4294967296 stateDistinct worldDistinct = some sd :=
  ⟨by decide, loops_terminate_in_bounds 4294967296 rawSample 4294967295 worldZero
    stateDistinct worldDistinct (by decide) (by decide) (by decide) (by decide) (by decide)⟩

end dxvk
